import Mathlib

/-! DNS-over-TLS proxy: the query handler and the listener start-up.

A shallow embedding of `main.go`.  The Go functions `DNSHandler`,
`DNSHandlerAlternative` and `StartServer` call into the network, the TLS stack
and the `dns` library.  Those calls are the fields of `World`: each one takes
the state of the outside world and returns its Go results together with the
next state, so that a world may answer every call differently.  The embedded
functions thread that state in program order and record every external call
they make as an `Event`; the theorems are about the recorded trace and hold
for every world.
-/

namespace DnsOverTls

/-! ## Data model -/

/-- Go `time.Duration`: a count of nanoseconds. -/
abbrev Duration := Int

/-- Go `time.Millisecond`. -/
def Millisecond : Duration := 1000000

/-- Go `error` values that are not nil, represented by the text `err.Error()` returns;
`Option Error` is a Go `error`, `none` being nil. -/
abbrev Error := String

/-- Handle of an established `*tls.Conn`. -/
abbrev Conn := Nat

/-- The struct `Config` of `main.go`. -/
structure Config where
  UpStreamResolverIp : String
  UpStreamResolverPort : String
  UpStreamResolverHost : String
  TCPPort : String
  UDPPort : String
  UpstreamTimeout : Duration
  deriving DecidableEq, Repr

/-- The fields of `tls.Config` that `main.go` sets. -/
structure TLSConfig where
  ServerName : String
  deriving DecidableEq, Repr

/-- The fields of `net.Dialer` that `main.go` sets. -/
structure Dialer where
  Timeout : Duration
  deriving DecidableEq, Repr

/-- The fields of `dns.Client` that `main.go` sets; `TLSConfig` is a pointer, `none` when left nil. -/
structure Client where
  Net : String
  Timeout : Duration
  TLSConfig : Option TLSConfig
  deriving DecidableEq, Repr

/-- The fields of `dns.Conn` that `main.go` sets: the wrapped connection. -/
structure DnsConn where
  Conn : Conn
  deriving DecidableEq, Repr

/-- The fields of `dns.Server` that `main.go` sets and reads. -/
structure Server where
  Addr : String
  Net : String
  deriving DecidableEq, Repr

/-- Modelled from the spec: the question entries of a DNS message; the type is declared
in the dns library, not in the source. -/
structure Question where
  Name : String
  Qtype : Nat
  Qclass : Nat
  deriving DecidableEq, Repr

/-- Modelled from the spec: a parsed DNS message ("question section, opcode, flags, unique
transaction ID") with its answer records kept as text; the type `dns.Msg` is declared in
the dns library, not in the source. -/
structure Msg where
  Id : Nat
  Response : Bool
  Opcode : Nat
  RecursionDesired : Bool
  Rcode : Nat
  Question : List Question
  Answer : List String
  deriving DecidableEq, Repr

/-- The constant `dns.RcodeServerFailure` (SERVFAIL). -/
def RcodeServerFailure : Nat := 2

/-- How a Go function call ended. -/
inductive Outcome where
  | returned
  | panicked (text : String)
  deriving DecidableEq, Repr

/-- One external call made by the program, with the arguments it was given. -/
inductive Event where
  | dial (d : Dialer) (network : String) (addr : String) (cfg : TLSConfig)
  | exchangeWithConn (c : Client) (m : Msg) (co : DnsConn)
  | exchange (c : Client) (m : Msg) (addr : String)
  | writeMsg (m : Option Msg)
  | handleFailed (r : Msg)
  | close (conn : Conn)
  | listenAndServe (srv : Server)
  | log (line : String)
  deriving DecidableEq, Repr

/-- The outside world as the program sees it.  Every field is one external function the
source calls, given the world's state `σ` and returning the Go results with the next state.
A Go `*dns.Msg` result is an `Option Msg` (nil is `none`). -/
structure World (σ : Type) where
  /-- Go `tls.DialWithDialer(dialer, network, addr, config)`. -/
  DialWithDialer : Dialer → String → String → TLSConfig → σ → (Conn × Option Error) × σ
  /-- Go `client.ExchangeWithConn(m, conn)`: response, round-trip time, error. -/
  ExchangeWithConn : Client → Msg → DnsConn → σ → (Option Msg × Duration × Option Error) × σ
  /-- Go `client.Exchange(m, address)`: response, round-trip time, error. -/
  Exchange : Client → Msg → String → σ → (Option Msg × Duration × Option Error) × σ
  /-- Go `w.WriteMsg(m)` on the client's `dns.ResponseWriter`. -/
  WriteMsg : Option Msg → σ → Option Error × σ
  /-- Go `conn.Close()`. -/
  Close : Conn → σ → Option Error × σ
  /-- Go `s.ListenAndServe()`. -/
  ListenAndServe : Server → σ → Option Error × σ
  /-- Go `new(dns.Msg).SetRcode(request, rcode)`: the reply to `request` carrying `rcode`. -/
  SetRcode : Msg → Nat → Msg

/-- What one call of an embedded function did: the external calls in order, the world it
left behind, and how it ended. -/
structure Run (σ : Type) where
  trace : List Event
  world : σ
  outcome : Outcome

/-! ## The program -/

/-- Go `net.JoinHostPort`: a host containing a colon is put in square brackets. -/
def JoinHostPort (host port : String) : String :=
  if ':' ∈ host.data then "[" ++ host ++ "]:" ++ port else host ++ ":" ++ port

/-- Go `fmt.Sprintf("%s:%s", a, b)`. -/
def sprintfColon (a b : String) : String := a ++ ":" ++ b

/-- The value `conf` built in `main`. -/
def mainConf : Config :=
  { UpStreamResolverIp := "185.49.141.38"
    UpStreamResolverPort := "853"
    UpStreamResolverHost := "getdnsapi.net"
    TCPPort := ":53"
    UDPPort := ":53"
    UpstreamTimeout := Millisecond * 3000 }

/-- Modelled from the spec: `dns.HandleFailed(w, r)` of the dns library, which is not in the
source: it builds the SERVFAIL reply to `r` and writes it to the client once, ignoring
the error of that write.  The call itself is recorded before the write. -/
def HandleFailed {σ : Type} (W : World σ) (r : Msg) (s : σ) : List Event × σ :=
  let m := W.SetRcode r RcodeServerFailure
  ([Event.handleFailed r, Event.writeMsg (some m)], (W.WriteMsg (some m) s).2)

/-- The body of the closure `DNSHandler` after `defer conn.Close()`: the exchange on the
dialed connection and the answer to the client, one branch for each way the source leaves
the closure. -/
def exchangeAndReply {σ : Type} (W : World σ) (conf : Config) (r : Msg) (conn : Conn) (s1 : σ) :
    List Event × σ :=
  let client : Client := { Net := "tcp-tls", Timeout := conf.UpstreamTimeout, TLSConfig := none }
  match W.ExchangeWithConn client r { Conn := conn } s1 with
  | ((_, _, some err), s2) =>
      let (t, s3) := HandleFailed W r s2
      (Event.exchangeWithConn client r { Conn := conn }
        :: Event.log ("Failed to query upstream DNS: " ++ err) :: t, s3)
  | ((response, _, none), s2) =>
      match W.WriteMsg response s2 with
      | (some err, s3) =>
          ([Event.exchangeWithConn client r { Conn := conn }, Event.writeMsg response,
            Event.log ("Failed to write response: " ++ err)], s3)
      | (none, s3) =>
          ([Event.exchangeWithConn client r { Conn := conn }, Event.writeMsg response], s3)

/-- The closure returned by `DNSHandler(conf)`, applied to the client's response writer (the
`WriteMsg` of the world) and the inbound query `r`.  The deferred `conn.Close()` runs when
the closure returns, after everything else. -/
def DNSHandler {σ : Type} (W : World σ) (conf : Config) (r : Msg) (s : σ) : Run σ :=
  let tlsConfig : TLSConfig := { ServerName := conf.UpStreamResolverHost }
  let addr := JoinHostPort conf.UpStreamResolverIp conf.UpStreamResolverPort
  let dialer : Dialer := { Timeout := conf.UpstreamTimeout }
  match W.DialWithDialer dialer "tcp" addr tlsConfig s with
  | ((_, some err), s1) =>
      let (t, s2) := HandleFailed W r s1
      { trace := Event.dial dialer "tcp" addr tlsConfig
          :: Event.log ("Failed to connect to upstream DNS server: " ++ err) :: t
        world := s2
        outcome := Outcome.returned }
  | ((conn, none), s1) =>
      let (t, s2) := exchangeAndReply W conf r conn s1
      { trace := Event.dial dialer "tcp" addr tlsConfig :: t ++ [Event.close conn]
        world := (W.Close conn s2).2
        outcome := Outcome.returned }

/-- The variable `upstreamAddr` of `DNSHandlerAlternative` at the time of the exchange: it is
first built from the host name and then assigned again, from the IP. -/
def alternativeUpstreamAddr (conf : Config) : String := Id.run do
  let mut upstreamAddr := sprintfColon conf.UpStreamResolverHost conf.UpStreamResolverPort
  upstreamAddr := sprintfColon conf.UpStreamResolverIp conf.UpStreamResolverPort
  return upstreamAddr

/-- The closure returned by `DNSHandlerAlternative(conf)`, applied to the client's response
writer and the inbound query `r`. -/
def DNSHandlerAlternative {σ : Type} (W : World σ) (conf : Config) (r : Msg) (s : σ) : Run σ :=
  let client : Client :=
    { Net := "tcp-tls", Timeout := conf.UpstreamTimeout
      TLSConfig := some { ServerName := conf.UpStreamResolverHost } }
  let upstreamAddr := alternativeUpstreamAddr conf
  match W.Exchange client r upstreamAddr s with
  | ((_, _, some err), s1) =>
      let (t, s2) := HandleFailed W r s1
      { trace := Event.exchange client r upstreamAddr
          :: Event.log ("Failed to query upstream DNS: " ++ err) :: t
        world := s2
        outcome := Outcome.returned }
  | ((response, _, none), s1) =>
      match W.WriteMsg response s1 with
      | (some err, s2) =>
          { trace := [Event.exchange client r upstreamAddr, Event.writeMsg response,
              Event.log ("Failed to write response: " ++ err)]
            world := s2
            outcome := Outcome.returned }
      | (none, s2) =>
          { trace := [Event.exchange client r upstreamAddr, Event.writeMsg response]
            world := s2
            outcome := Outcome.returned }

/-- Go `StartServer(s)`: two log lines, one `ListenAndServe`, and a panic with the error text
when that returns an error. -/
def StartServer {σ : Type} (W : World σ) (srv : Server) (s : σ) : Run σ :=
  let line1 := "DNS server is running on port " ++ srv.Net ++ "/" ++ srv.Addr
  let n := if srv.Net = "tcp" then "+tcp" else ""
  let line2 := "try in cli : dig +short " ++ n ++ " google.com @localhost"
  match W.ListenAndServe srv s with
  | (some err, s1) =>
      { trace := [Event.log line1, Event.log line2, Event.listenAndServe srv]
        world := s1
        outcome := Outcome.panicked err }
  | (none, s1) =>
      { trace := [Event.log line1, Event.log line2, Event.listenAndServe srv]
        world := s1
        outcome := Outcome.returned }

/-! ## Reading a trace -/

/-- The upstream dials of a trace, in order, with their arguments. -/
def dials : List Event → List (Dialer × String × String × TLSConfig)
  | [] => []
  | Event.dial d n a c :: t => (d, n, a, c) :: dials t
  | _ :: t => dials t

/-- The exchanges on a dialed connection, in order, with their arguments. -/
def exchanges : List Event → List (Client × Msg × DnsConn)
  | [] => []
  | Event.exchangeWithConn c m co :: t => (c, m, co) :: exchanges t
  | _ :: t => exchanges t

/-- The exchanges by address (the alternative handler), in order, with their arguments. -/
def addrExchanges : List Event → List (Client × Msg × String)
  | [] => []
  | Event.exchange c m a :: t => (c, m, a) :: addrExchanges t
  | _ :: t => addrExchanges t

/-- The messages handed to the client's `WriteMsg`, in order. -/
def clientWrites : List Event → List (Option Msg)
  | [] => []
  | Event.writeMsg m :: t => m :: clientWrites t
  | _ :: t => clientWrites t

/-- The queries `dns.HandleFailed` was called with, in order. -/
def failedCalls : List Event → List Msg
  | [] => []
  | Event.handleFailed r :: t => r :: failedCalls t
  | _ :: t => failedCalls t

/-- The connections closed, in order. -/
def closes : List Event → List Conn
  | [] => []
  | Event.close c :: t => c :: closes t
  | _ :: t => closes t

/-- The servers `ListenAndServe` was called on, in order. -/
def serves : List Event → List Server
  | [] => []
  | Event.listenAndServe srv :: t => srv :: serves t
  | _ :: t => serves t

/-- Whether the event is a write to the client connection. -/
def Event.isClientWrite : Event → Bool
  | Event.writeMsg _ => true
  | _ => false

/-- Whether the event is a call to the upstream: a dial or an exchange. -/
def Event.isUpstreamCall : Event → Bool
  | Event.dial _ _ _ _ => true
  | Event.exchangeWithConn _ _ _ => true
  | Event.exchange _ _ _ => true
  | _ => false

/-- Whether the event closes a connection. -/
def Event.isClose : Event → Bool
  | Event.close _ => true
  | _ => false

/-- The events before the first write to the client. -/
def beforeFirstWrite (t : List Event) : List Event :=
  t.takeWhile (fun e => !e.isClientWrite)

/-- The first write to the client and everything after it. -/
def fromFirstWrite (t : List Event) : List Event :=
  t.dropWhile (fun e => !e.isClientWrite)

/-- The events that follow the first close of a connection. -/
def afterFirstClose (t : List Event) : List Event :=
  (t.dropWhile (fun e => !e.isClose)).tail

/-- The host part that Go `tls.DialWithDialer` cuts from the dialed address: the text before
the last colon, the whole address when it has no colon. -/
def dialHostname (addr : String) : String :=
  if ':' ∈ addr.data then
    ⟨((addr.data.reverse.dropWhile (fun c => c != ':')).drop 1).reverse⟩
  else addr

/-- The name Go `tls.DialWithDialer` verifies the peer certificate against: the `ServerName`
of the configuration it is given, and when that is empty the host part of the dialed
address. -/
def verifiedServerName (addr : String) (cfg : TLSConfig) : String :=
  if cfg.ServerName = "" then dialHostname addr else cfg.ServerName

/-- The names the upstream certificate is verified against, one for each dial of a trace. -/
def verifiedNames (t : List Event) : List String :=
  (dials t).map (fun d => verifiedServerName d.2.2.1 d.2.2.2)

/-- The time limit a Go `net.Dialer` puts on a dial: its `Timeout`, a zero `Timeout` meaning
no limit (`none`). -/
def dialerLimit (d : Dialer) : Option Duration :=
  if d.Timeout = 0 then none else some d.Timeout

/-- The default time limit of the dns library, two seconds. -/
def dnsTimeout : Duration := 2000 * Millisecond

/-- The time limit a `dns.Client` puts on the write and on the read of an exchange: its
`Timeout`, a zero `Timeout` meaning the default of the library. -/
def clientLimit (c : Client) : Option Duration :=
  if c.Timeout = 0 then some dnsTimeout else some c.Timeout

/-- The result of the dial that `DNSHandler` makes for `conf` in world state `s`. -/
def dialResult {σ : Type} (W : World σ) (conf : Config) (s : σ) : (Conn × Option Error) × σ :=
  W.DialWithDialer { Timeout := conf.UpstreamTimeout } "tcp"
    (JoinHostPort conf.UpStreamResolverIp conf.UpStreamResolverPort)
    { ServerName := conf.UpStreamResolverHost } s

/-- The result of the exchange that `DNSHandler` makes for query `r` on connection `conn`
in world state `s1`. -/
def exchangeResult {σ : Type} (W : World σ) (conf : Config) (r : Msg) (conn : Conn) (s1 : σ) :
    (Option Msg × Duration × Option Error) × σ :=
  W.ExchangeWithConn { Net := "tcp-tls", Timeout := conf.UpstreamTimeout, TLSConfig := none } r
    { Conn := conn } s1

/-- Modelled from the spec: `ExchangeWithConn` belongs to the dns library and is not in the
source; the spec says of the upstream answer that the original transaction ID is "preserved
by the underlying exchange".  A world honours this when no exchange returns, without error,
a message whose ID differs from the ID of the query it was given. -/
def ExchangePreservesId {σ : Type} (W : World σ) : Prop :=
  ∀ (c : Client) (q : Msg) (co : DnsConn) (s : σ) (m : Msg) (rtt : Duration) (s2 : σ),
    W.ExchangeWithConn c q co s = ((some m, rtt, none), s2) → m.Id = q.Id

/-! ## Concrete worlds -/

/-- The answers of a scripted world: what each external call returns. -/
structure Script where
  dialErr : Option Error
  conn : Conn
  response : Option Msg
  rtt : Duration
  exchangeErr : Option Error
  writeErr : Option Error
  closeErr : Option Error
  serveErr : Option Error

/-- The error a scripted exchange of query `q` returns: the scripted error, and for a scripted
reply whose ID is not the ID of `q` the ID mismatch error of the dns library. -/
def Script.exchangeOutcome (sc : Script) (q : Msg) : Option Error :=
  match sc.exchangeErr, sc.response with
  | some e, _ => some e
  | none, some m => if m.Id = q.Id then none else some "dns: id mismatch"
  | none, none => none

/-- The world that answers by a script; its state counts the external calls made so far. -/
def scripted (sc : Script) : World Nat where
  DialWithDialer := fun _ _ _ _ n => ((sc.conn, sc.dialErr), n + 1)
  ExchangeWithConn := fun _ q _ n => ((sc.response, sc.rtt, sc.exchangeOutcome q), n + 1)
  Exchange := fun _ q _ n => ((sc.response, sc.rtt, sc.exchangeOutcome q), n + 1)
  WriteMsg := fun _ n => (sc.writeErr, n + 1)
  Close := fun _ n => (sc.closeErr, n + 1)
  ListenAndServe := fun _ n => (sc.serveErr, n + 1)
  SetRcode := fun req rcode =>
    { Id := req.Id, Response := true, Opcode := req.Opcode
      RecursionDesired := if req.Opcode = 0 then req.RecursionDesired else false
      Rcode := rcode
      Question := req.Question.take 1, Answer := [] }

/-- A query for the A record of example.com with transaction ID 4660. -/
def sampleQuery : Msg :=
  { Id := 4660, Response := false, Opcode := 0, RecursionDesired := true, Rcode := 0
    Question := [{ Name := "example.com.", Qtype := 1, Qclass := 1 }], Answer := [] }

/-- An upstream answer to `sampleQuery`. -/
def sampleAnswer : Msg :=
  { Id := 4660, Response := true, Opcode := 0, RecursionDesired := true, Rcode := 0
    Question := [{ Name := "example.com.", Qtype := 1, Qclass := 1 }]
    Answer := ["example.com. 300 IN A 93.184.216.34"] }

/-- Script: the upstream answers and the client takes the answer. -/
def scriptAnswered : Script :=
  { dialErr := none, conn := 7, response := some sampleAnswer, rtt := 12000000
    exchangeErr := none, writeErr := none, closeErr := none, serveErr := none }

/-- Script: the upstream answers and the write to the client fails. -/
def scriptWriteFails : Script :=
  { scriptAnswered with writeErr := some "write: broken pipe" }

/-- Script: the dial is refused. -/
def scriptDialRefused : Script :=
  { scriptAnswered with dialErr := some "dial tcp 185.49.141.38:853: connection refused" }

/-- Script: the dial succeeds and the exchange times out. -/
def scriptExchangeTimeout : Script :=
  { scriptAnswered with response := none, exchangeErr := some "i/o timeout" }

end DnsOverTls

namespace DnsOverTls

/-! ## The shape of a handler run -/

variable {σ : Type}

theorem DNSHandler_dial_failed (W : World σ) (conf : Config) (r : Msg) (s : σ)
    (conn : Conn) (e : Error) (s1 : σ) (hd : dialResult W conf s = ((conn, some e), s1)) :
    DNSHandler W conf r s =
      { trace := [Event.dial { Timeout := conf.UpstreamTimeout } "tcp"
            (JoinHostPort conf.UpStreamResolverIp conf.UpStreamResolverPort)
            { ServerName := conf.UpStreamResolverHost },
          Event.log ("Failed to connect to upstream DNS server: " ++ e),
          Event.handleFailed r,
          Event.writeMsg (some (W.SetRcode r RcodeServerFailure))]
        world := (W.WriteMsg (some (W.SetRcode r RcodeServerFailure)) s1).2
        outcome := Outcome.returned } := by
  unfold dialResult at hd
  simp only [DNSHandler, hd, HandleFailed]

theorem DNSHandler_exchange_failed (W : World σ) (conf : Config) (r : Msg) (s : σ)
    (conn : Conn) (s1 : σ) (hd : dialResult W conf s = ((conn, none), s1))
    (resp : Option Msg) (rtt : Duration) (e : Error) (s2 : σ)
    (hx : exchangeResult W conf r conn s1 = ((resp, rtt, some e), s2)) :
    DNSHandler W conf r s =
      { trace := [Event.dial { Timeout := conf.UpstreamTimeout } "tcp"
            (JoinHostPort conf.UpStreamResolverIp conf.UpStreamResolverPort)
            { ServerName := conf.UpStreamResolverHost },
          Event.exchangeWithConn
            { Net := "tcp-tls", Timeout := conf.UpstreamTimeout, TLSConfig := none } r
            { Conn := conn },
          Event.log ("Failed to query upstream DNS: " ++ e),
          Event.handleFailed r,
          Event.writeMsg (some (W.SetRcode r RcodeServerFailure)),
          Event.close conn]
        world := (W.Close conn (W.WriteMsg (some (W.SetRcode r RcodeServerFailure)) s2).2).2
        outcome := Outcome.returned } := by
  unfold dialResult at hd
  unfold exchangeResult at hx
  simp only [DNSHandler, hd, exchangeAndReply, hx, HandleFailed, List.cons_append,
    List.nil_append]

theorem DNSHandler_answered (W : World σ) (conf : Config) (r : Msg) (s : σ)
    (conn : Conn) (s1 : σ) (hd : dialResult W conf s = ((conn, none), s1))
    (resp : Option Msg) (rtt : Duration) (s2 : σ)
    (hx : exchangeResult W conf r conn s1 = ((resp, rtt, none), s2)) :
    DNSHandler W conf r s =
      { trace := [Event.dial { Timeout := conf.UpstreamTimeout } "tcp"
            (JoinHostPort conf.UpStreamResolverIp conf.UpStreamResolverPort)
            { ServerName := conf.UpStreamResolverHost },
          Event.exchangeWithConn
            { Net := "tcp-tls", Timeout := conf.UpstreamTimeout, TLSConfig := none } r
            { Conn := conn },
          Event.writeMsg resp]
          ++ (match (W.WriteMsg resp s2).1 with
              | some e => [Event.log ("Failed to write response: " ++ e)]
              | none => [])
          ++ [Event.close conn]
        world := (W.Close conn (W.WriteMsg resp s2).2).2
        outcome := Outcome.returned } := by
  unfold dialResult at hd
  unfold exchangeResult at hx
  simp only [DNSHandler, hd, exchangeAndReply, hx]
  rcases hw : W.WriteMsg resp s2 with ⟨_ | we, s3⟩ <;> simp

theorem dials_DNSHandler (W : World σ) (conf : Config) (r : Msg) (s : σ) :
    dials (DNSHandler W conf r s).trace =
      [({ Timeout := conf.UpstreamTimeout }, "tcp",
        JoinHostPort conf.UpStreamResolverIp conf.UpStreamResolverPort,
        { ServerName := conf.UpStreamResolverHost })] := by
  rcases hd : dialResult W conf s with ⟨⟨conn, _ | de⟩, s1⟩
  · rcases hx : exchangeResult W conf r conn s1 with ⟨⟨resp, rtt, _ | xe⟩, s2⟩
    · rw [DNSHandler_answered W conf r s conn s1 hd resp rtt s2 hx]
      cases (W.WriteMsg resp s2).1 <;> simp [dials]
    · rw [DNSHandler_exchange_failed W conf r s conn s1 hd resp rtt xe s2 hx]
      simp [dials]
  · rw [DNSHandler_dial_failed W conf r s conn de s1 hd]
    simp [dials]

theorem exchanges_DNSHandler (W : World σ) (conf : Config) (r : Msg) (s : σ) :
    exchanges (DNSHandler W conf r s).trace =
      if (dialResult W conf s).1.2 = none then
        [({ Net := "tcp-tls", Timeout := conf.UpstreamTimeout, TLSConfig := none }, r,
          { Conn := (dialResult W conf s).1.1 })]
      else [] := by
  rcases hd : dialResult W conf s with ⟨⟨conn, _ | de⟩, s1⟩
  · rcases hx : exchangeResult W conf r conn s1 with ⟨⟨resp, rtt, _ | xe⟩, s2⟩
    · rw [DNSHandler_answered W conf r s conn s1 hd resp rtt s2 hx]
      cases (W.WriteMsg resp s2).1 <;> simp [exchanges]
    · rw [DNSHandler_exchange_failed W conf r s conn s1 hd resp rtt xe s2 hx]
      simp [exchanges]
  · rw [DNSHandler_dial_failed W conf r s conn de s1 hd]
    simp [exchanges]

theorem scripted_preservesId (sc : Script) : ExchangePreservesId (scripted sc) := by
  intro c q co n m rtt n2 h
  simp only [scripted, Prod.mk.injEq] at h
  obtain ⟨⟨hresp, -, herr⟩, -⟩ := h
  unfold Script.exchangeOutcome at herr
  rw [hresp] at herr
  cases he : sc.exchangeErr with
  | some e => rw [he] at herr; simp at herr
  | none =>
    rw [he] at herr
    by_contra hne
    simp [hne] at herr

/-! ## The handler's answer to the client -/

/-- C1: when the upstream dial succeeds and the exchange on that connection returns a message
without error, the one message `DNSHandler` passes to the client's `WriteMsg` is the very
message the exchange returned, and `HandleFailed` is not called. -/
theorem DNSHandler_forwards_upstream_answer (W : World σ) (conf : Config) (r : Msg) (s : σ)
    (conn : Conn) (s1 : σ) (resp : Option Msg) (rtt : Duration) (s2 : σ)
    (hd : dialResult W conf s = ((conn, none), s1))
    (hx : exchangeResult W conf r conn s1 = ((resp, rtt, none), s2)) :
    clientWrites (DNSHandler W conf r s).trace = [resp] ∧
      failedCalls (DNSHandler W conf r s).trace = [] := by
  rw [DNSHandler_answered W conf r s conn s1 hd resp rtt s2 hx]
  cases (W.WriteMsg resp s2).1 <;> simp [clientWrites, failedCalls]

theorem DNSHandler_forwards_upstream_answer_witness :
    dialResult (scripted scriptAnswered) mainConf 0 = ((7, none), 1) ∧
    exchangeResult (scripted scriptAnswered) mainConf sampleQuery 7 1
      = ((some sampleAnswer, 12000000, none), 2) ∧
    clientWrites (DNSHandler (scripted scriptAnswered) mainConf sampleQuery 0).trace
      = [some sampleAnswer] ∧
    failedCalls (DNSHandler (scripted scriptAnswered) mainConf sampleQuery 0).trace = [] :=
  ⟨rfl, rfl,
    DNSHandler_forwards_upstream_answer (scripted scriptAnswered) mainConf sampleQuery 0
      7 1 (some sampleAnswer) 12000000 2 rfl rfl⟩

/-- C2: when the upstream dial fails, or the dial succeeds and the exchange returns an error,
`DNSHandler` calls `HandleFailed` once, on the inbound query, and the only message written to
the client is the SERVFAIL reply to that query, whatever the error is. -/
theorem DNSHandler_upstream_failure_servfail (W : World σ) (conf : Config) (r : Msg) (s : σ)
    (e : Error)
    (h : (dialResult W conf s).1.2 = some e ∨
      ((dialResult W conf s).1.2 = none ∧
        (exchangeResult W conf r (dialResult W conf s).1.1 (dialResult W conf s).2).1.2.2
          = some e)) :
    failedCalls (DNSHandler W conf r s).trace = [r] ∧
      clientWrites (DNSHandler W conf r s).trace = [some (W.SetRcode r RcodeServerFailure)] := by
  rcases hd : dialResult W conf s with ⟨⟨conn, de⟩, s1⟩
  rw [hd] at h
  rcases h with h | ⟨h1, h2⟩
  · simp only at h
    subst h
    rw [DNSHandler_dial_failed W conf r s conn e s1 hd]
    simp [clientWrites, failedCalls]
  · simp only at h1 h2
    subst h1
    rcases hx : exchangeResult W conf r conn s1 with ⟨⟨resp, rtt, xe⟩, s2⟩
    rw [hx] at h2
    simp only at h2
    subst h2
    rw [DNSHandler_exchange_failed W conf r s conn s1 hd resp rtt e s2 hx]
    simp [clientWrites, failedCalls]

theorem DNSHandler_upstream_failure_servfail_witness :
    ((dialResult (scripted scriptDialRefused) mainConf 0).1.2
        = some "dial tcp 185.49.141.38:853: connection refused" ∧
      failedCalls (DNSHandler (scripted scriptDialRefused) mainConf sampleQuery 0).trace
        = [sampleQuery] ∧
      clientWrites (DNSHandler (scripted scriptDialRefused) mainConf sampleQuery 0).trace
        = [some { sampleQuery with Response := true, Rcode := 2 }]) ∧
    ((dialResult (scripted scriptExchangeTimeout) mainConf 0).1.2 = none ∧
      (exchangeResult (scripted scriptExchangeTimeout) mainConf sampleQuery 7 1).1.2.2
        = some "i/o timeout" ∧
      failedCalls (DNSHandler (scripted scriptExchangeTimeout) mainConf sampleQuery 0).trace
        = [sampleQuery] ∧
      clientWrites (DNSHandler (scripted scriptExchangeTimeout) mainConf sampleQuery 0).trace
        = [some { sampleQuery with Response := true, Rcode := 2 }]) :=
  ⟨⟨rfl, DNSHandler_upstream_failure_servfail (scripted scriptDialRefused) mainConf
      sampleQuery 0 "dial tcp 185.49.141.38:853: connection refused" (Or.inl rfl)⟩,
    ⟨rfl, rfl, DNSHandler_upstream_failure_servfail (scripted scriptExchangeTimeout) mainConf
      sampleQuery 0 "i/o timeout" (Or.inr ⟨rfl, rfl⟩)⟩⟩

/-- C3: in every world, one call of the `DNSHandler` closure makes exactly one write to the
client connection; the dial and the exchange (when there is one) all come before that write
and no upstream call comes after it; when the dial and the exchange succeed and the write
itself fails, that write of the upstream response stays the only one and `HandleFailed` is
not called; and the closure returns normally. -/
theorem DNSHandler_single_client_write (W : World σ) (conf : Config) (r : Msg) (s : σ) :
    (clientWrites (DNSHandler W conf r s).trace).length = 1 ∧
    (dials (beforeFirstWrite (DNSHandler W conf r s).trace)).length = 1 ∧
    exchanges (beforeFirstWrite (DNSHandler W conf r s).trace)
      = exchanges (DNSHandler W conf r s).trace ∧
    (∀ e ∈ fromFirstWrite (DNSHandler W conf r s).trace, e.isUpstreamCall = false) ∧
    (∀ (conn : Conn) (s1 : σ) (resp : Option Msg) (rtt : Duration) (s2 : σ) (err : Error)
        (s3 : σ),
      dialResult W conf s = ((conn, none), s1) →
      exchangeResult W conf r conn s1 = ((resp, rtt, none), s2) →
      W.WriteMsg resp s2 = (some err, s3) →
      clientWrites (DNSHandler W conf r s).trace = [resp] ∧
        failedCalls (DNSHandler W conf r s).trace = []) ∧
    (DNSHandler W conf r s).outcome = Outcome.returned := by
  rcases hd : dialResult W conf s with ⟨⟨conn, _ | de⟩, s1⟩
  · rcases hx : exchangeResult W conf r conn s1 with ⟨⟨resp, rtt, _ | xe⟩, s2⟩
    · rw [DNSHandler_answered W conf r s conn s1 hd resp rtt s2 hx]
      refine ⟨?_, ?_, ?_, ?_, ?_, rfl⟩
      · cases (W.WriteMsg resp s2).1 <;> simp [clientWrites]
      · simp [beforeFirstWrite, Event.isClientWrite, List.takeWhile, dials]
      · cases (W.WriteMsg resp s2).1 <;>
          simp [beforeFirstWrite, Event.isClientWrite, List.takeWhile, exchanges]
      · cases (W.WriteMsg resp s2).1 <;>
          simp [fromFirstWrite, Event.isClientWrite, List.dropWhile, Event.isUpstreamCall]
      · intro conn2 t1 resp2 rtt2 t2 err t3 h1 h2 _
        obtain ⟨rfl, rfl⟩ : conn = conn2 ∧ s1 = t1 := by
          simpa using h1
        rw [hx] at h2
        obtain ⟨⟨rfl, -⟩, rfl⟩ : (resp = resp2 ∧ rtt = rtt2) ∧ s2 = t2 := by
          simpa using h2
        cases (W.WriteMsg resp s2).1 <;> simp [clientWrites, failedCalls]
    · rw [DNSHandler_exchange_failed W conf r s conn s1 hd resp rtt xe s2 hx]
      refine ⟨?_, ?_, ?_, ?_, ?_, rfl⟩
      · simp [clientWrites]
      · simp [beforeFirstWrite, Event.isClientWrite, List.takeWhile, dials]
      · simp [beforeFirstWrite, Event.isClientWrite, List.takeWhile, exchanges]
      · simp [fromFirstWrite, Event.isClientWrite, List.dropWhile, Event.isUpstreamCall]
      · intro conn2 t1 resp2 rtt2 t2 err t3 h1 h2 _
        obtain ⟨rfl, rfl⟩ : conn = conn2 ∧ s1 = t1 := by
          simpa using h1
        rw [hx] at h2
        simp at h2
  · rw [DNSHandler_dial_failed W conf r s conn de s1 hd]
    refine ⟨?_, ?_, ?_, ?_, ?_, rfl⟩
    · simp [clientWrites]
    · simp [beforeFirstWrite, Event.isClientWrite, List.takeWhile, dials]
    · simp [beforeFirstWrite, Event.isClientWrite, List.takeWhile, exchanges]
    · simp [fromFirstWrite, Event.isClientWrite, List.dropWhile, Event.isUpstreamCall]
    · intro conn2 t1 resp2 rtt2 t2 err t3 h1 _ _
      simp at h1

theorem DNSHandler_single_client_write_witness :
    (scripted scriptWriteFails).WriteMsg (some sampleAnswer) 2
      = (some "write: broken pipe", 3) ∧
    clientWrites (DNSHandler (scripted scriptWriteFails) mainConf sampleQuery 0).trace
      = [some sampleAnswer] ∧
    failedCalls (DNSHandler (scripted scriptWriteFails) mainConf sampleQuery 0).trace = [] :=
  ⟨rfl,
    (DNSHandler_single_client_write (scripted scriptWriteFails) mainConf sampleQuery 0).2.2.2.2.1
      7 1 (some sampleAnswer) 12000000 2 "write: broken pipe" 3 rfl rfl rfl⟩

/-! ## The upstream connection -/

/-- C4: in every world, one call of the `DNSHandler` closure dials the upstream exactly once
and exchanges at most once; it exchanges if and only if the dial returned no error, the
exchange carries the inbound query on the connection that dial returned, and no failure
leads to a second dial or a second exchange. -/
theorem DNSHandler_one_dial_at_most_one_exchange (W : World σ) (conf : Config) (r : Msg)
    (s : σ) :
    (dials (DNSHandler W conf r s).trace).length = 1 ∧
    (exchanges (DNSHandler W conf r s).trace).length ≤ 1 ∧
    ((exchanges (DNSHandler W conf r s).trace).length = 1 ↔ (dialResult W conf s).1.2 = none) ∧
    (∀ x ∈ exchanges (DNSHandler W conf r s).trace,
      x.2.1 = r ∧ x.2.2 = { Conn := (dialResult W conf s).1.1 }) := by
  rw [dials_DNSHandler, exchanges_DNSHandler]
  by_cases h : (dialResult W conf s).1.2 = none <;> simp [h]

/-- C5: in every world, when the dial returned no error the `DNSHandler` closure closes the
dialed connection exactly once, and when the dial failed it closes nothing; the close is the
last external call of the closure, so that no exchange and no client write follows it. -/
theorem DNSHandler_closes_dialed_connection (W : World σ) (conf : Config) (r : Msg) (s : σ) :
    closes (DNSHandler W conf r s).trace =
      (if (dialResult W conf s).1.2 = none then [(dialResult W conf s).1.1] else []) ∧
    afterFirstClose (DNSHandler W conf r s).trace = [] ∧
    (∀ c ∈ closes (DNSHandler W conf r s).trace,
      (DNSHandler W conf r s).trace.getLast? = some (Event.close c)) := by
  rcases hd : dialResult W conf s with ⟨⟨conn, _ | de⟩, s1⟩
  · rcases hx : exchangeResult W conf r conn s1 with ⟨⟨resp, rtt, _ | xe⟩, s2⟩
    · rw [DNSHandler_answered W conf r s conn s1 hd resp rtt s2 hx]
      cases (W.WriteMsg resp s2).1 <;>
        simp [closes, afterFirstClose, Event.isClose, List.dropWhile]
    · rw [DNSHandler_exchange_failed W conf r s conn s1 hd resp rtt xe s2 hx]
      simp [closes, afterFirstClose, Event.isClose, List.dropWhile]
  · rw [DNSHandler_dial_failed W conf r s conn de s1 hd]
    simp [closes, afterFirstClose, Event.isClose, List.dropWhile]

/-- C6, as stated, fails: with an empty `UpStreamResolverHost` the name the certificate is
verified against is taken from the dialed address, so it follows the configured IP: it is
"127.0.0.1" for the IP 127.0.0.1 and "[::1]" for the IP ::1. -/
theorem DNSHandler_verified_name_follows_ip :
    verifiedNames (DNSHandler (scripted scriptAnswered)
        { mainConf with UpStreamResolverHost := "", UpStreamResolverIp := "127.0.0.1" }
        sampleQuery 0).trace = ["127.0.0.1"] ∧
    verifiedNames (DNSHandler (scripted scriptAnswered)
        { mainConf with UpStreamResolverHost := "", UpStreamResolverIp := "::1" }
        sampleQuery 0).trace = ["[::1]"] ∧
    verifiedNames (DNSHandler (scripted scriptAnswered)
        { mainConf with UpStreamResolverHost := "", UpStreamResolverIp := "127.0.0.1" }
        sampleQuery 0).trace
      ≠ verifiedNames (DNSHandler (scripted scriptAnswered)
        { mainConf with UpStreamResolverHost := "", UpStreamResolverIp := "::1" }
        sampleQuery 0).trace := by
  decide

/-- C6, amended: in every world and for every configuration, the one dial of `DNSHandler` is on
network "tcp", to `net.JoinHostPort(UpStreamResolverIp, UpStreamResolverPort)`, with a TLS
configuration whose `ServerName` is `UpStreamResolverHost`, and changing the configured host
name leaves the dialed address unchanged; when `UpStreamResolverHost` is not empty the name
the certificate is verified against is `UpStreamResolverHost`, and changing the configured
IP leaves it unchanged. -/
theorem DNSHandler_dial_arguments (W : World σ) (conf : Config) (r : Msg) (s : σ) :
    (dials (DNSHandler W conf r s).trace).map (fun d => (d.2.1, d.2.2.1, d.2.2.2.ServerName))
      = [("tcp", JoinHostPort conf.UpStreamResolverIp conf.UpStreamResolverPort,
          conf.UpStreamResolverHost)] ∧
    (∀ host : String,
      (dials (DNSHandler W { conf with UpStreamResolverHost := host } r s).trace).map
          (fun d => d.2.2.1)
        = (dials (DNSHandler W conf r s).trace).map (fun d => d.2.2.1)) ∧
    (conf.UpStreamResolverHost ≠ "" →
      verifiedNames (DNSHandler W conf r s).trace = [conf.UpStreamResolverHost] ∧
      ∀ ip : String,
        verifiedNames (DNSHandler W { conf with UpStreamResolverIp := ip } r s).trace
          = verifiedNames (DNSHandler W conf r s).trace) := by
  refine ⟨?_, ?_, ?_⟩
  · rw [dials_DNSHandler]; rfl
  · intro host
    rw [dials_DNSHandler, dials_DNSHandler]
    rfl
  · intro hne
    have hv : ∀ c : Config, c.UpStreamResolverHost = conf.UpStreamResolverHost →
        verifiedNames (DNSHandler W c r s).trace = [conf.UpStreamResolverHost] := by
      intro c hc
      unfold verifiedNames
      rw [dials_DNSHandler]
      simp [verifiedServerName, hc, hne]
    refine ⟨hv conf rfl, ?_⟩
    intro ip
    rw [hv conf rfl, hv { conf with UpStreamResolverIp := ip } rfl]

theorem DNSHandler_dial_arguments_witness :
    mainConf.UpStreamResolverHost ≠ "" ∧
    verifiedNames (DNSHandler (scripted scriptAnswered) mainConf sampleQuery 0).trace
      = ["getdnsapi.net"] ∧
    verifiedNames (DNSHandler (scripted scriptAnswered)
        { mainConf with UpStreamResolverIp := "::1" } sampleQuery 0).trace
      = verifiedNames (DNSHandler (scripted scriptAnswered) mainConf sampleQuery 0).trace :=
  ⟨by decide,
    ((DNSHandler_dial_arguments (scripted scriptAnswered) mainConf sampleQuery 0).2.2
      (by decide)).1,
    ((DNSHandler_dial_arguments (scripted scriptAnswered) mainConf sampleQuery 0).2.2
      (by decide)).2 "::1"⟩

/-- C7, as stated, fails: with `UpstreamTimeout` zero the dial has no time limit while the
exchange is limited by the two seconds default of the dns library, so the two upstream
blocking points are not bounded by the same duration, and neither by the configured one. -/
theorem DNSHandler_zero_timeout_limits_differ :
    (dials (DNSHandler (scripted scriptAnswered) { mainConf with UpstreamTimeout := 0 }
        sampleQuery 0).trace).map (fun d => dialerLimit d.1) = [none] ∧
    (exchanges (DNSHandler (scripted scriptAnswered) { mainConf with UpstreamTimeout := 0 }
        sampleQuery 0).trace).map (fun x => clientLimit x.1) = [some 2000000000] ∧
    (none : Option Duration) ≠ some 2000000000 := by
  decide

/-- C7, amended: in every world and for every configuration, the dial of `DNSHandler` is made
with a dialer whose timeout is `UpstreamTimeout` and every exchange with a client whose
timeout is `UpstreamTimeout`; when `UpstreamTimeout` is not zero, that duration is the time
limit of the dial and of every exchange; for the configuration built in `main` it is
3000 milliseconds (3000000000 nanoseconds), which is not zero. -/
theorem DNSHandler_timeouts (W : World σ) (conf : Config) (r : Msg) (s : σ) :
    (dials (DNSHandler W conf r s).trace).map (fun d => d.1.Timeout) = [conf.UpstreamTimeout] ∧
    (∀ x ∈ exchanges (DNSHandler W conf r s).trace, x.1.Timeout = conf.UpstreamTimeout) ∧
    (conf.UpstreamTimeout ≠ 0 →
      (dials (DNSHandler W conf r s).trace).map (fun d => dialerLimit d.1)
        = [some conf.UpstreamTimeout] ∧
      ∀ x ∈ exchanges (DNSHandler W conf r s).trace,
        clientLimit x.1 = some conf.UpstreamTimeout) ∧
    mainConf.UpstreamTimeout = 3000 * Millisecond ∧
    mainConf.UpstreamTimeout = 3000000000 ∧
    mainConf.UpstreamTimeout ≠ 0 := by
  refine ⟨?_, ?_, ?_, by decide, by decide, by decide⟩
  · rw [dials_DNSHandler]; rfl
  · rw [exchanges_DNSHandler]
    by_cases h : (dialResult W conf s).1.2 = none <;> simp [h]
  · intro hne
    rw [dials_DNSHandler, exchanges_DNSHandler]
    refine ⟨by simp [dialerLimit, hne], ?_⟩
    by_cases h : (dialResult W conf s).1.2 = none <;> simp [h, clientLimit, hne]

theorem DNSHandler_timeouts_witness :
    mainConf.UpstreamTimeout ≠ 0 ∧
    (dials (DNSHandler (scripted scriptAnswered) mainConf sampleQuery 0).trace).map
        (fun d => dialerLimit d.1) = [some mainConf.UpstreamTimeout] ∧
    clientLimit (Client.mk "tcp-tls" mainConf.UpstreamTimeout none)
      = some mainConf.UpstreamTimeout :=
  ⟨by decide,
    ((DNSHandler_timeouts (scripted scriptAnswered) mainConf sampleQuery 0).2.2.1
      (by decide)).1,
    ((DNSHandler_timeouts (scripted scriptAnswered) mainConf sampleQuery 0).2.2.1
      (by decide)).2
      (Client.mk "tcp-tls" mainConf.UpstreamTimeout none, sampleQuery, DnsConn.mk 7)
      (by decide)⟩

/-- C8: in every world whose exchange preserves the transaction ID, every message that
`DNSHandler` writes to the client as the upstream answer (a write not made by `HandleFailed`)
carries the transaction ID of the inbound query. -/
theorem DNSHandler_answer_keeps_id (W : World σ) (hW : ExchangePreservesId W) (conf : Config)
    (r : Msg) (s : σ) (m : Msg)
    (hok : failedCalls (DNSHandler W conf r s).trace = [])
    (hm : some m ∈ clientWrites (DNSHandler W conf r s).trace) :
    m.Id = r.Id := by
  rcases hd : dialResult W conf s with ⟨⟨conn, _ | de⟩, s1⟩
  · rcases hx : exchangeResult W conf r conn s1 with ⟨⟨resp, rtt, _ | xe⟩, s2⟩
    · rw [DNSHandler_answered W conf r s conn s1 hd resp rtt s2 hx] at hm
      have hresp : resp = some m := by
        cases hw : (W.WriteMsg resp s2).1 <;> rw [hw] at hm <;>
          simpa [clientWrites, eq_comm] using hm
      subst hresp
      exact hW _ _ _ _ _ _ _ hx
    · rw [DNSHandler_exchange_failed W conf r s conn s1 hd resp rtt xe s2 hx] at hok
      simp [failedCalls] at hok
  · rw [DNSHandler_dial_failed W conf r s conn de s1 hd] at hok
    simp [failedCalls] at hok

theorem DNSHandler_answer_keeps_id_witness :
    ExchangePreservesId (scripted scriptAnswered) ∧
    failedCalls (DNSHandler (scripted scriptAnswered) mainConf sampleQuery 0).trace = [] ∧
    some sampleAnswer
      ∈ clientWrites (DNSHandler (scripted scriptAnswered) mainConf sampleQuery 0).trace ∧
    sampleAnswer.Id = sampleQuery.Id :=
  ⟨scripted_preservesId scriptAnswered, by decide, by decide,
    DNSHandler_answer_keeps_id (scripted scriptAnswered) (scripted_preservesId scriptAnswered)
      mainConf sampleQuery 0 sampleAnswer (by decide) (by decide)⟩

/-! ## The listener and the alternative handler -/

/-- C9: in every world and for every server, `StartServer` calls `ListenAndServe` on that
server exactly once; it panics, with the text of the error, exactly when `ListenAndServe`
returned an error, and returns normally exactly when it returned none. -/
theorem StartServer_serves_once (W : World σ) (srv : Server) (s : σ) :
    serves (StartServer W srv s).trace = [srv] ∧
    (∀ text : String,
      (StartServer W srv s).outcome = Outcome.panicked text
        ↔ (W.ListenAndServe srv s).1 = some text) ∧
    ((StartServer W srv s).outcome = Outcome.returned ↔ (W.ListenAndServe srv s).1 = none) := by
  rcases h : W.ListenAndServe srv s with ⟨_ | e, s1⟩ <;> simp [StartServer, h, serves]

/-- C10, as stated, fails: for the configuration of `main` the address that
`DNSHandlerAlternative` passes to `client.Exchange` is "185.49.141.38:853", built from the IP,
and not "getdnsapi.net:853". -/
theorem DNSHandlerAlternative_address_not_from_host :
    (addrExchanges
        (DNSHandlerAlternative (scripted scriptAnswered) mainConf sampleQuery 0).trace).map
      (fun x => x.2.2) = ["185.49.141.38:853"] ∧
    "185.49.141.38:853"
      ≠ mainConf.UpStreamResolverHost ++ ":" ++ mainConf.UpStreamResolverPort := by
  decide

/-- C10, amended: in every world and for every configuration, `DNSHandlerAlternative` makes one
exchange, to the address `UpStreamResolverIp + ":" + UpStreamResolverPort`; the configured
host name is the `ServerName` of the client's TLS configuration. -/
theorem DNSHandlerAlternative_address_from_ip (W : World σ) (conf : Config) (r : Msg) (s : σ) :
    addrExchanges (DNSHandlerAlternative W conf r s).trace =
      [({ Net := "tcp-tls", Timeout := conf.UpstreamTimeout,
          TLSConfig := some { ServerName := conf.UpStreamResolverHost } }, r,
        conf.UpStreamResolverIp ++ ":" ++ conf.UpStreamResolverPort)] := by
  have ha : alternativeUpstreamAddr conf
      = conf.UpStreamResolverIp ++ ":" ++ conf.UpStreamResolverPort := rfl
  rcases hx : W.Exchange (Client.mk "tcp-tls" conf.UpstreamTimeout
      (some (TLSConfig.mk conf.UpStreamResolverHost))) r
      (conf.UpStreamResolverIp ++ ":" ++ conf.UpStreamResolverPort) s
    with ⟨⟨resp, rtt, _ | xe⟩, s1⟩
  · rcases hw : W.WriteMsg resp s1 with ⟨_ | we, s2⟩ <;>
      simp [DNSHandlerAlternative, ha, hx, hw, addrExchanges]
  · simp [DNSHandlerAlternative, ha, hx, HandleFailed, addrExchanges]

end DnsOverTls
